import Mathlib

/-!
Shallow embedding of the `vault` package (a lightweight wrapper around a
Vault secret-store client) and its configuration, and proofs of the
specification's testable properties.

Go values of type `interface{}` are modelled by `GoVal`; Go errors by the
inductive `GoError`, where `GoError.wrap2 e1 e2` models
`fmt.Errorf("%w; %w", e1, e2)` (an error wrapping both arguments).  A Go
panic (from a failed unchecked type assertion) is modelled by
`Outcome.panic`; a normal return of the pair `(secret, err)` by
`Outcome.ret`.  Effect-only logging calls (`o.log.Info`, `o.log.Debug`)
are not modelled: they do not influence any returned value.
-/

namespace Vault

/-- A Go `error` value.  `base msg` is an error built from a plain message
(e.g. by the wrapped client); `wrap2 e1 e2` is the error produced by
`fmt.Errorf("%w; %w", e1, e2)`, which wraps both `e1` and `e2`. -/
inductive GoError : Type
  | base (msg : String)
  | wrap2 (e1 e2 : GoError)
deriving DecidableEq, Repr

/-- The message of a Go error: `fmt.Errorf("%w; %w", e1, e2)` formats the
two wrapped errors separated by `"; "`. -/
def GoError.message : GoError → String
  | .base msg => msg
  | .wrap2 e1 e2 => e1.message ++ "; " ++ e2.message

/-- `e.contains t` models `errors.Is(e, t)` for the wrapping structure
built by `%w`: `t` is `e` itself or reachable by unwrapping. -/
def GoError.contains : GoError → GoError → Bool
  | .base msg, t => GoError.base msg == t
  | .wrap2 e1 e2, t => GoError.wrap2 e1 e2 == t || e1.contains t || e2.contains t

/-- A Go `interface{}` value as stored in a secret document:
a string, a nested `map[string]interface{}` (as an association list in
document order), or any other value (including `nil`, which is what a Go
map lookup yields for an absent key). -/
inductive GoVal : Type
  | vstr (s : String)
  | vmap (m : List (String × GoVal))
  | vother

/-- Go map lookup `m[key]`: the value at `key`, or `nil` (here `none`)
when absent. -/
def goLookup (m : List (String × GoVal)) (key : String) : Option GoVal :=
  (m.find? (fun p => p.1 == key)).map Prod.snd

/-- Result of a Go function call that can also panic: `ret a` is a normal
return, `panicked` an unrecoverable runtime fault (failed unchecked type
assertion). -/
inductive Outcome (α : Type) : Type
  | ret (a : α)
  | panicked
deriving DecidableEq, Repr

/-- `emptyStr` constant from the source. -/
def emptyStr : String := ""

/-- `defaultURL` constant from the source. -/
def defaultURL : String := "https://your.vault.server.url/"

/- Environment variable names consumed by `NewConfig`. -/

def envSpaceName : String := "SPACE_NAME"
def envSecretPath : String := "SECRET_PATH"
def envAWSIAMRoleARN : String := "IAM_ROLE_ARN"
def envAppRoleID : String := "APP_ROLE_ID"
def envAppRoleSecretID : String := "APP_ROLE_SECRET_ID"

/-- Modelled from the spec: the property-registry name constants
`propertySpaceName` and `propertySecretPath` used by `Config.Validate`
are declared outside the available source files.  The spec says `Validate`
fails "naming the first missing required field"; the two constants are
modelled as distinct strings naming the space-identifier and secret-path
fields. -/
def propertySpaceName : String := "vault.spaceName"

/-- Modelled from the spec: see `propertySpaceName`. -/
def propertySecretPath : String := "vault.secretPath"

/-- `fmt.Errorf(errFmtConfigValidation, field)` with
`errFmtConfigValidation = "failed to validate Vault Provider config, %s is empty"`. -/
def errFmtConfigValidation (field : String) : GoError :=
  GoError.base ("failed to validate Vault Provider config, " ++ field ++ " is empty")

/-- The `Config` struct from the source. -/
structure Config : Type where
  SpaceName : String
  SecretPath : String
  SecretMountPath : String
  AWSLoginPath : String
  AppRoleLoginPath : String
  AWSIAMRoleArn : String
  AppRoleID : String
  AppRoleSecretID : String
deriving DecidableEq, Repr

/-- `NewConfig` from the source.  The process environment is passed as a
function `env : String → String`; Go's `os.Getenv` returns the empty
string for an unset variable, so unset and empty are both the value `""`.
`fmt.Sprintf("%s/secrets", spaceName)` is string concatenation. -/
def NewConfig (env : String → String) : Config :=
  let spaceName := env envSpaceName
  { SpaceName := spaceName
    SecretPath := env envSecretPath
    SecretMountPath := spaceName ++ "/secrets"
    AWSLoginPath := spaceName ++ "/aws"
    AppRoleLoginPath := spaceName ++ "/approle"
    AWSIAMRoleArn := env envAWSIAMRoleARN
    AppRoleID := env envAppRoleID
    AppRoleSecretID := env envAppRoleSecretID }

/-- `Config.Validate` from the source: returns the first validation error
(`none` models a `nil` error). -/
def Config.Validate (c : Config) : Option GoError :=
  if c.SpaceName = emptyStr then some (errFmtConfigValidation propertySpaceName)
  else if c.SecretPath = emptyStr then some (errFmtConfigValidation propertySecretPath)
  else none

/-- `vault.IAMLoginOptions` (fields used by the source). -/
structure IAMLoginOptions : Type where
  Role : String
  MountPath : String
deriving DecidableEq, Repr

/-- `vault.AppRoleLoginOptions` (fields used by the source). -/
structure AppRoleLoginOptions : Type where
  RoleID : String
  SecretID : String
  MountPath : String
deriving DecidableEq, Repr

/-- `Config.getIAMLoginOptions` from the source. -/
def Config.getIAMLoginOptions (c : Config) : IAMLoginOptions :=
  { Role := c.AWSIAMRoleArn, MountPath := c.AWSLoginPath }

/-- `Config.getAppRoleLoginOptions` from the source. -/
def Config.getAppRoleLoginOptions (c : Config) : AppRoleLoginOptions :=
  { RoleID := c.AppRoleID, SecretID := c.AppRoleSecretID
    MountPath := c.AppRoleLoginPath }

/-- `vault.KV2GetOptions` (fields used by the source). -/
structure KV2GetOptions : Type where
  MountPath : String
  SecretPath : String
deriving DecidableEq, Repr

/-- The response of `vault.Client.KV2.Get`: its `Data` field is the
`map[string]interface{}` holding the fetched secret document. -/
structure SecretResponse : Type where
  Data : List (String × GoVal)

/-- The wrapped `vault.Client`, modelled by the behaviour of the three
operations the package calls on it.  Each login returns the error of the
attempt (`none` models a `nil` error; the secret response is discarded by
the source).  `KV2Get` models `client.KV2.Get`. -/
structure Client : Type where
  IAMLogin : IAMLoginOptions → Option GoError
  AppRoleLogin : AppRoleLoginOptions → Option GoError
  KV2Get : KV2GetOptions → Except GoError SecretResponse

/-- The two login strategies, used to record which `Login` calls a chain
actually issues. -/
inductive Strategy : Type
  | iam
  | appRole
deriving DecidableEq, Repr

/-- An auth provider, as the source's `AuthProvider` closure: given the
client it returns the auth error (`none` = `nil`).  The model additionally
returns the ordered list of `Login` calls issued, so that short-circuiting
is observable. -/
def AuthProvider : Type := Client → Option GoError × List Strategy

/-- The `options` struct from the source.  The `log` field is omitted:
logging is effect-only and no returned value depends on it. -/
structure Options : Type where
  url : String
  authProvider : AuthProvider

/-- The auth provider installed by `WithDefaultChainAuthProvider` (the
closure at lines 138–158 of the source): try IAM login; on success return
`nil` immediately; otherwise try AppRole login; on success return `nil`;
otherwise return `fmt.Errorf("%w; %w", iamErr, appRoleErr)`.  The second
component records the `Login` calls issued, in order. -/
def defaultChainAuthProvider (config : Config) : AuthProvider :=
  fun client =>
    match client.IAMLogin config.getIAMLoginOptions with
    | none => (none, [Strategy.iam])
    | some iamErr =>
      match client.AppRoleLogin config.getAppRoleLoginOptions with
      | none => (none, [Strategy.iam, Strategy.appRole])
      | some appRoleErr =>
        (some (GoError.wrap2 iamErr appRoleErr), [Strategy.iam, Strategy.appRole])

/-- The package's `Option` constructors.  An option value is a function
`*options → *options`; the constructors exported by the package are
enumerated here so that "an option list without `WithURL`" is statable.
(`WithLogger` mutates only the omitted `log` field and is the identity on
the modelled fields.) -/
inductive OptionSpec : Type
  | withLogger
  | withURL (url : String)
  | withDefaultChainAuthProvider (config : Config)
  | withIAMAuthProvider (loginOptions : IAMLoginOptions)
  | withAppRoleAuthProvider (loginOptions : AppRoleLoginOptions)

/-- Application of one option to the options struct, following each
constructor's body in the source. -/
def applyOption (o : Options) : OptionSpec → Options
  | .withLogger => o
  | .withURL url => { o with url := url }
  | .withDefaultChainAuthProvider config =>
      { o with authProvider := defaultChainAuthProvider config }
  | .withIAMAuthProvider loginOptions =>
      { o with authProvider := fun client =>
          (client.IAMLogin loginOptions, [Strategy.iam]) }
  | .withAppRoleAuthProvider loginOptions =>
      { o with authProvider := fun client =>
          (client.AppRoleLogin loginOptions, [Strategy.appRole]) }

/-- `createDefaultOptions` from the source: url starts at `defaultURL` and
the auth provider at the default chain for the given config. -/
def createDefaultOptions (config : Config) : Options :=
  { url := defaultURL, authProvider := defaultChainAuthProvider config }

/-- The option-resolution loop of `NewComponent` (lines 40–43): start from
`createDefaultOptions config` and apply the caller's options in order. -/
def resolveOptions (config : Config) (opts : List OptionSpec) : Options :=
  opts.foldl applyOption (createDefaultOptions config)

/-- The server URL `NewComponent` assigns to `vaultClientConfig.Address`
(line 50): the `url` field of the resolved options. -/
def configuredAddress (config : Config) (opts : List OptionSpec) : String :=
  (resolveOptions config opts).url

/-- The `Component` struct from the source. -/
structure Component : Type where
  config : Config
  vaultClient : Client

/-- `Component.GetSecret` from the source.  The fetched document is read
at `secretResp.Data["data"]` and the result of the unchecked type
assertion `.(map[string]interface{})` is modelled: a non-map value (or the
`nil` a Go map yields for an absent key) makes the assertion panic.
Likewise `secretMap[key].(string)` panics unless the value at `key` is a
string. -/
def Component.GetSecret (c : Component) (key : String) :
    Outcome (String × Option GoError) :=
  match c.vaultClient.KV2Get
      { MountPath := c.config.SecretMountPath
        SecretPath := c.config.SecretPath } with
  | .error err => .ret (emptyStr, some err)
  | .ok secretResp =>
    match goLookup secretResp.Data "data" with
    | some (GoVal.vmap secretMap) =>
      match goLookup secretMap key with
      | some (GoVal.vstr s) => .ret (s, none)
      | _ => .panicked
    | _ => .panicked

/-! Concrete values used to instantiate the theorems below. -/

/-- An environment with `SPACE_NAME=TeamSpace` and `SECRET_PATH=mysecret-dev`. -/
def exampleEnv : String → String := fun name =>
  if name = envSpaceName then "TeamSpace"
  else if name = envSecretPath then "mysecret-dev"
  else ""

/-- The configuration resolved from `exampleEnv`. -/
def exampleConfig : Config := NewConfig exampleEnv

/-- The nested data payload of the example secret document:
`{"password": "s3cr3t"}`. -/
def exampleDoc : List (String × GoVal) := [("password", GoVal.vstr "s3cr3t")]

/-- The example fetched secret document: its `Data` map is
`{"data": {"password": "s3cr3t"}}`. -/
def exampleResp : SecretResponse := ⟨[("data", GoVal.vmap exampleDoc)]⟩

/-- A client whose logins succeed and whose KV2 read returns
`exampleResp`. -/
def exampleClient : Client :=
  { IAMLogin := fun _ => none
    AppRoleLogin := fun _ => none
    KV2Get := fun _ => .ok exampleResp }

/-- A component over `exampleConfig` and `exampleClient`. -/
def exampleComponent : Component := ⟨exampleConfig, exampleClient⟩

/-- A client whose logins fail and whose KV2 read fails. -/
def failingClient : Client :=
  { IAMLogin := fun _ => some (GoError.base "iam login failed")
    AppRoleLogin := fun _ => some (GoError.base "approle login failed")
    KV2Get := fun _ => .error (GoError.base "connection refused") }

/-- A component over `exampleConfig` and `failingClient`. -/
def failingComponent : Component := ⟨exampleConfig, failingClient⟩

/-- A client whose IAM login fails but whose AppRole login succeeds. -/
def mixedClient : Client :=
  { IAMLogin := fun _ => some (GoError.base "iam login failed")
    AppRoleLogin := fun _ => none
    KV2Get := fun _ => .ok exampleResp }

/-! Theorems. -/

/-- `errors.Is(e, e)` holds: every error contains itself. -/
theorem GoError.contains_self (e : GoError) : e.contains e = true := by
  cases e <;> simp [GoError.contains]

/-- C2: when both the IAM login and the AppRole login fail, the default
authentication chain fails with the single combined error
`fmt.Errorf("%w; %w", iamErr, appRoleErr)`, which wraps (is traceable to)
both underlying failures, not just the last one. -/
theorem defaultChain_both_fail_combined (config : Config) (client : Client)
    (iamErr appRoleErr : GoError)
    (hiam : client.IAMLogin config.getIAMLoginOptions = some iamErr)
    (happ : client.AppRoleLogin config.getAppRoleLoginOptions = some appRoleErr) :
    (defaultChainAuthProvider config client).1
        = some (GoError.wrap2 iamErr appRoleErr)
      ∧ (GoError.wrap2 iamErr appRoleErr).contains iamErr = true
      ∧ (GoError.wrap2 iamErr appRoleErr).contains appRoleErr = true := by
  refine ⟨?_, ?_, ?_⟩
  · simp [defaultChainAuthProvider, hiam, happ]
  · simp [GoError.contains, GoError.contains_self]
  · simp [GoError.contains, GoError.contains_self]

/-- Witness for C2 at a concrete client whose logins both fail. -/
theorem defaultChain_both_fail_combined_witness :
    (defaultChainAuthProvider exampleConfig failingClient).1
        = some (GoError.wrap2 (GoError.base "iam login failed")
            (GoError.base "approle login failed"))
      ∧ (GoError.wrap2 (GoError.base "iam login failed")
            (GoError.base "approle login failed")).contains
          (GoError.base "iam login failed") = true
      ∧ (GoError.wrap2 (GoError.base "iam login failed")
            (GoError.base "approle login failed")).contains
          (GoError.base "approle login failed") = true :=
  defaultChain_both_fail_combined exampleConfig failingClient
    (GoError.base "iam login failed") (GoError.base "approle login failed")
    rfl rfl

/-- C3: when the IAM login succeeds, the default authentication chain
returns a `nil` error immediately and its list of issued `Login` calls is
exactly `[iam]`: the AppRole login is never attempted. -/
theorem defaultChain_iam_success_short_circuits (config : Config)
    (client : Client)
    (hiam : client.IAMLogin config.getIAMLoginOptions = none) :
    defaultChainAuthProvider config client = (none, [Strategy.iam])
      ∧ Strategy.appRole ∉ (defaultChainAuthProvider config client).2 := by
  have h : defaultChainAuthProvider config client = (none, [Strategy.iam]) := by
    simp [defaultChainAuthProvider, hiam]
  exact ⟨h, by rw [h]; simp⟩

/-- Witness for C3 at a concrete client whose IAM login succeeds. -/
theorem defaultChain_iam_success_short_circuits_witness :
    defaultChainAuthProvider exampleConfig exampleClient
        = (none, [Strategy.iam])
      ∧ Strategy.appRole
          ∉ (defaultChainAuthProvider exampleConfig exampleClient).2 :=
  defaultChain_iam_success_short_circuits exampleConfig exampleClient rfl

/-- C7: when the IAM login fails but the AppRole login succeeds, the
default authentication chain returns a `nil` error (the earlier IAM
failure is discarded). -/
theorem defaultChain_appRole_rescues (config : Config) (client : Client)
    (iamErr : GoError)
    (hiam : client.IAMLogin config.getIAMLoginOptions = some iamErr)
    (happ : client.AppRoleLogin config.getAppRoleLoginOptions = none) :
    (defaultChainAuthProvider config client).1 = none := by
  simp [defaultChainAuthProvider, hiam, happ]

/-- Witness for C7 at a concrete client with failing IAM login and
succeeding AppRole login. -/
theorem defaultChain_appRole_rescues_witness :
    (defaultChainAuthProvider exampleConfig mixedClient).1 = none :=
  defaultChain_appRole_rescues exampleConfig mixedClient
    (GoError.base "iam login failed") rfl rfl

/-- C4: `Validate` checks the space identifier first, then the secret
path: an empty space identifier yields the validation error naming the
space-identifier field regardless of the secret path; a non-empty space
identifier with an empty secret path yields the error naming the
secret-path field; with both non-empty, `Validate` returns `nil`. -/
theorem validate_first_missing_field (c : Config) :
    (c.SpaceName = "" →
        c.Validate = some (errFmtConfigValidation propertySpaceName))
      ∧ (c.SpaceName ≠ "" → c.SecretPath = "" →
        c.Validate = some (errFmtConfigValidation propertySecretPath))
      ∧ (c.SpaceName ≠ "" → c.SecretPath ≠ "" → c.Validate = none) := by
  refine ⟨fun h1 => ?_, fun h1 h2 => ?_, fun h1 h2 => ?_⟩
  · simp [Config.Validate, emptyStr, h1]
  · simp [Config.Validate, emptyStr, h1, h2]
  · simp [Config.Validate, emptyStr, h1, h2]

/-- Witness for C4 at three concrete configurations: empty space
identifier, empty secret path only, and fully populated. -/
theorem validate_first_missing_field_witness :
    (NewConfig fun _ => "").Validate
        = some (errFmtConfigValidation propertySpaceName)
      ∧ (NewConfig fun name =>
            if name = envSpaceName then "TeamSpace" else "").Validate
        = some (errFmtConfigValidation propertySecretPath)
      ∧ exampleConfig.Validate = none :=
  ⟨(validate_first_missing_field (NewConfig fun _ => "")).1 rfl,
   (validate_first_missing_field (NewConfig fun name =>
        if name = envSpaceName then "TeamSpace" else "")).2.1
      (by decide) rfl,
   (validate_first_missing_field exampleConfig).2.2 (by decide) (by decide)⟩

/-- C5: for every environment, `NewConfig` derives the secret mount path
as the space identifier followed by `"/secrets"`, the AWS login path
followed by `"/aws"`, and the AppRole login path followed by
`"/approle"`; in particular with space identifier `"TeamSpace"` these are
`"TeamSpace/secrets"`, `"TeamSpace/aws"` and `"TeamSpace/approle"`. -/
theorem newConfig_derived_paths :
    (∀ env : String → String,
        (NewConfig env).SecretMountPath = env envSpaceName ++ "/secrets"
          ∧ (NewConfig env).AWSLoginPath = env envSpaceName ++ "/aws"
          ∧ (NewConfig env).AppRoleLoginPath = env envSpaceName ++ "/approle")
      ∧ exampleConfig.SpaceName = "TeamSpace"
      ∧ exampleConfig.SecretMountPath = "TeamSpace/secrets"
      ∧ exampleConfig.AWSLoginPath = "TeamSpace/aws"
      ∧ exampleConfig.AppRoleLoginPath = "TeamSpace/approle" :=
  ⟨fun _ => ⟨rfl, rfl, rfl⟩, rfl, rfl, rfl, rfl⟩

/-- C10: with `SPACE_NAME` unset or empty (Go's `os.Getenv` returns the
empty string in both cases), `NewConfig` still formats the derived paths
from the empty space identifier, yielding `"/secrets"`, `"/aws"` and
`"/approle"`; `NewConfig` itself does not reject this, only the later
`Validate` call does, naming the space-identifier field. -/
theorem newConfig_empty_space_paths (env : String → String)
    (h : env envSpaceName = "") :
    (NewConfig env).SecretMountPath = "/secrets"
      ∧ (NewConfig env).AWSLoginPath = "/aws"
      ∧ (NewConfig env).AppRoleLoginPath = "/approle"
      ∧ (NewConfig env).Validate
        = some (errFmtConfigValidation propertySpaceName) := by
  refine ⟨?_, ?_, ?_, ?_⟩ <;> simp [NewConfig, Config.Validate, emptyStr, h]

/-- Witness for C10 at the all-empty environment. -/
theorem newConfig_empty_space_paths_witness :
    (NewConfig fun _ => "").SecretMountPath = "/secrets"
      ∧ (NewConfig fun _ => "").AWSLoginPath = "/aws"
      ∧ (NewConfig fun _ => "").AppRoleLoginPath = "/approle"
      ∧ (NewConfig fun _ => "").Validate
        = some (errFmtConfigValidation propertySpaceName) :=
  newConfig_empty_space_paths (fun _ => "") rfl

/-- C6: when the read at the configured mount/secret path succeeds and
the document's nested `"data"` payload maps `key` to the string `s`,
`GetSecret key` returns `s` with a `nil` error. -/
theorem getSecret_present_key (c : Component) (key s : String)
    (resp : SecretResponse) (m : List (String × GoVal))
    (hget : c.vaultClient.KV2Get
        { MountPath := c.config.SecretMountPath
          SecretPath := c.config.SecretPath } = .ok resp)
    (hdata : goLookup resp.Data "data" = some (GoVal.vmap m))
    (hkey : goLookup m key = some (GoVal.vstr s)) :
    c.GetSecret key = .ret (s, none) := by
  simp [Component.GetSecret, hget, hdata, hkey]

/-- Witness for C6: `GetSecret "password"` against the document
`{"data": {"password": "s3cr3t"}}` returns `"s3cr3t"` and a `nil`
error. -/
theorem getSecret_present_key_witness :
    exampleComponent.GetSecret "password" = .ret ("s3cr3t", none) :=
  getSecret_present_key exampleComponent "password" "s3cr3t"
    exampleResp exampleDoc rfl rfl rfl

/-- C8: whenever the underlying store read fails, `GetSecret` returns the
empty string together with the read error propagated verbatim. -/
theorem getSecret_read_error_propagated (c : Component) (key : String)
    (err : GoError)
    (hget : c.vaultClient.KV2Get
        { MountPath := c.config.SecretMountPath
          SecretPath := c.config.SecretPath } = .error err) :
    c.GetSecret key = .ret (emptyStr, some err) := by
  simp [Component.GetSecret, hget]

/-- Witness for C8 at a concrete component whose store read fails. -/
theorem getSecret_read_error_propagated_witness :
    failingComponent.GetSecret "password"
      = .ret (emptyStr, some (GoError.base "connection refused")) :=
  getSecret_read_error_propagated failingComponent "password"
    (GoError.base "connection refused") rfl

/-- C1 counterexample: against the document
`{"data": {"password": "s3cr3t"}}`, which has no `"missing"` key,
`GetSecret "missing"` does not return an error: it panics (the unchecked
type assertion `secretMap[key].(string)` fails on the `nil` the Go map
yields for an absent key). -/
theorem getSecret_missing_key_counterexample :
    goLookup exampleDoc "missing" = none
      ∧ exampleComponent.GetSecret "missing" = .panicked :=
  ⟨rfl, rfl⟩

/-- C1 amended: for every key not present in the fetched document's
nested data payload (after a successful read whose `"data"` entry is a
map), `GetSecret key` panics with a failed unchecked type assertion — an
unrecoverable runtime fault — instead of returning an explicit error. -/
theorem getSecret_missing_key_panics (c : Component) (key : String)
    (resp : SecretResponse) (m : List (String × GoVal))
    (hget : c.vaultClient.KV2Get
        { MountPath := c.config.SecretMountPath
          SecretPath := c.config.SecretPath } = .ok resp)
    (hdata : goLookup resp.Data "data" = some (GoVal.vmap m))
    (hkey : goLookup m key = none) :
    c.GetSecret key = .panicked := by
  simp [Component.GetSecret, hget, hdata, hkey]

/-- Witness for the amended C1 at the example component and the absent
key `"missing"`. -/
theorem getSecret_missing_key_panics_witness :
    exampleComponent.GetSecret "missing" = .panicked :=
  getSecret_missing_key_panics exampleComponent "missing"
    exampleResp exampleDoc rfl rfl rfl

/-- The `url` field is untouched by folding options none of which is
`withURL`. -/
theorem foldl_url_no_withURL (opts : List OptionSpec) (o : Options)
    (h : ∀ s ∈ opts, ∀ v, s ≠ OptionSpec.withURL v) :
    (opts.foldl applyOption o).url = o.url := by
  induction opts generalizing o with
  | nil => rfl
  | cons s rest ih =>
    have hs := h s (List.mem_cons_self s rest)
    have hrest : ∀ x ∈ rest, ∀ v, x ≠ OptionSpec.withURL v :=
      fun x hx => h x (List.mem_cons_of_mem s hx)
    rw [List.foldl_cons]
    rw [ih (applyOption o s) hrest]
    cases s with
    | withURL v => exact absurd rfl (hs v)
    | _ => rfl

/-- C9: the server URL handed to the Vault client (line 50 of the source)
is `defaultURL` whenever the component is constructed without a `WithURL`
option, and is `u` when `WithURL u` is supplied (as the last option). -/
theorem configuredAddress_default_and_withURL (config : Config)
    (opts : List OptionSpec) (u : String) :
    ((∀ s ∈ opts, ∀ v, s ≠ OptionSpec.withURL v) →
        configuredAddress config opts = defaultURL)
      ∧ configuredAddress config (opts ++ [OptionSpec.withURL u]) = u := by
  constructor
  · intro h
    exact foldl_url_no_withURL opts (createDefaultOptions config) h
  · simp [configuredAddress, resolveOptions, List.foldl_append, applyOption]

/-- Witness for C9: with no options the address is the default URL, and
with `WithURL` it is the supplied URL. -/
theorem configuredAddress_default_and_withURL_witness :
    (configuredAddress exampleConfig [] = defaultURL)
      ∧ configuredAddress exampleConfig
          ([] ++ [OptionSpec.withURL "https://other.vault.example/"])
        = "https://other.vault.example/" :=
  ⟨(configuredAddress_default_and_withURL exampleConfig []
      "https://other.vault.example/").1 (by simp),
   (configuredAddress_default_and_withURL exampleConfig []
      "https://other.vault.example/").2⟩

end Vault
